import Mathlib

/-!
Shallow embedding of `ethereum/transactions.py` (the `Transaction` class):
construction checks, signing, lazy sender recovery, intrinsic gas and
contract-address prediction.  Byte strings are modelled as `List Nat`
(the code is Python-2 style, where `str` and `bytes` coincide, e.g.
`key in (0, '', b'\x00' * 32, '0' * 64)` and `self.to in (b'', '\0' * 20)`
mix the two).  External collaborators (the RLP codec, the keccak digest,
the EC sign/recover primitives, address derivation) are packaged in an
`Ext` structure of abstract functions, exactly as the module imports them.
-/

namespace PyEth

/-- Byte strings (Python 2 `str` / `bytes`) as lists of byte values. -/
abbrev Bytes := List Nat

/-- `secpk1n` from the source: the secp256k1 group order; the external
`bitcoin.N` used in the range checks is the same number. -/
def secpk1n : Nat :=
  115792089237316195423570985008687907852837564279074904382605163141518161494337

/-- `utils.TT256 = 2 ** 256`, the bound on the numeric fields. -/
def TT256 : Nat := 2 ^ 256

/-- `null_address = b'\xff' * 20` from the source. -/
def null_address : Bytes := List.replicate 20 255

/-- Modelled from the spec: `opcodes.GTXCOST`, the fixed base gas cost of a
transaction (the `opcodes` module is an external collaborator; the historical
constant is 21000).  The theorems below do not depend on the value. -/
def GTXCOST : Nat := 21000

/-- Modelled from the spec: `opcodes.GTXDATAZERO`, gas cost per zero byte of
transaction data (historical constant 4). -/
def GTXDATAZERO : Nat := 4

/-- Modelled from the spec: `opcodes.GTXDATANONZERO`, gas cost per non-zero
byte of transaction data (historical constant 68). -/
def GTXDATANONZERO : Nat := 68

/-- Items handed to the external RLP encoder: byte strings, integers, and
sequences (`rlp.encode` receives lists mixing serialized byte strings and
plain integers). -/
inductive RLPItem where
  | str (b : Bytes)
  | int (n : Nat)
  | list (l : List RLPItem)

/-- The `Transaction` record: the nine serialized fields plus the two
mutable attributes `network_id` (`None` initially) and the memoized
`_sender` cache (`None` initially). -/
structure Transaction where
  nonce : Nat
  gasprice : Nat
  startgas : Nat
  «to» : Bytes
  value : Nat
  data : Bytes
  v : Nat
  r : Nat
  s : Nat
  network_id : Option Nat
  _sender : Option Bytes
deriving DecidableEq

/-- The external collaborators imported by the module: the keccak digest
(`utils.sha3`), the RLP codec (`rlp.encode`), raw ECDSA signing
(`utils.ecsign`, returning `(v, r, s)`), public-key recovery
(`utils.ecrecover_to_pub`), private-key normalization
(`bitcoin.encode_privkey(key, 'bin')`), address-from-key derivation
(`utils.privtoaddr`) and contract-address derivation
(`utils.mk_contract_address`). -/
structure Ext where
  sha3 : Bytes → Bytes
  rlpEncode : RLPItem → Bytes
  ecsign : Bytes → Bytes → Nat × Nat × Nat
  ecrecover_to_pub : Bytes → Nat → Nat → Nat → Bytes
  encode_privkey : Bytes → Bytes
  privtoaddr : Bytes → Bytes
  mk_contract_address : Bytes → Nat → Bytes

/-- `rlp.infer_sedes(self).serialize(self)`: the ordered nine-element field
sequence `[nonce, gasprice, startgas, to, value, data, v, r, s]` of the
`fields` declaration. -/
def serializeFields (tx : Transaction) : List RLPItem :=
  [RLPItem.int tx.nonce, RLPItem.int tx.gasprice, RLPItem.int tx.startgas,
   RLPItem.str tx.«to», RLPItem.int tx.value, RLPItem.str tx.data,
   RLPItem.int tx.v, RLPItem.int tx.r, RLPItem.int tx.s]

/-- The `UnsignedTransaction = Transaction.exclude(['v', 'r', 's'])`
six-element sequence used by `rlp.encode(self, UnsignedTransaction)`. -/
def unsignedSeq (tx : Transaction) : List RLPItem :=
  (serializeFields tx).take 6

/-- The replay-protected sequence
`serialize(self)[:-3] + [chain_id, '', '']` of lines 90 and 117: the six
unsigned fields followed by the chain identifier as an integer and two
empty strings.  (On line 117 the source passes the chain id through
`utils.big_endian_to_int`; `utils` is an external collaborator, and per the
spec the appended element is the chain identifier as an integer.) -/
def replaySeq (tx : Transaction) (chainId : Nat) : List RLPItem :=
  (serializeFields tx).take 6 ++ [RLPItem.int chainId, RLPItem.str [], RLPItem.str []]

/-- `intrinsic_gas_used`: base cost plus per-zero-byte and per-non-zero-byte
costs over `data`. -/
def intrinsic_gas_used (data : Bytes) : Nat :=
  GTXCOST + GTXDATAZERO * data.count 0
    + GTXDATANONZERO * (data.length - data.count 0)

/-- `Transaction.__init__`: asserts `to` is 20 bytes or empty (after
`normalize_address`, which leaves well-formed addresses unchanged), rejects
numeric fields `≥ 2^256` and `startgas` below the intrinsic gas, and
otherwise produces the record with `network_id = None` and no cached
sender. -/
def mkTransaction (nonce gasprice startgas : Nat) («to» : Bytes) (value : Nat)
    (data : Bytes) (v r s : Nat) : Except String Transaction :=
  if ¬(«to».length = 20 ∨ «to».length = 0) then Except.error "AssertionError"
  else if TT256 ≤ gasprice ∨ TT256 ≤ startgas ∨ TT256 ≤ value ∨ TT256 ≤ nonce then
    Except.error "Values way too high!"
  else if startgas < intrinsic_gas_used data then Except.error "Startgas too low"
  else Except.ok
    { nonce := nonce, gasprice := gasprice, startgas := startgas, «to» := «to»,
      value := value, data := data, v := v, r := r, s := s,
      network_id := none, _sender := none }

/-- Line 87: `self.network_id = ((self.v - 1) // 2) - 17` (the chain
identifier extracted from a replay-protected `v`). -/
def extractChainId (v : Nat) : Nat := (v - 1) / 2 - 17

/-- Line 88: `vee = self.v - self.network_id * 2 - 8` (the raw recovery
parity extracted from a replay-protected `v`). -/
def recoveryParity (v : Nat) : Nat := v - extractChainId v * 2 - 8

/-- `utils.sha3(pub)[-20:]`: the address is the last 20 bytes of the digest
of the recovered public key. -/
def pubToAddr (ext : Ext) (pub : Bytes) : Bytes :=
  (ext.sha3 pub).drop ((ext.sha3 pub).length - 20)

/-- The truthiness test `if not self._sender:` — `None` and the empty byte
string are falsy, so recovery runs exactly when this is `none`. -/
def cachedSender (tx : Transaction) : Option Bytes :=
  match tx._sender with
  | none => none
  | some l => if l = [] then none else some l

/-- Lines 94-99 of `Transaction.sender`: the range checks on `r`/`s`, the
public-key recovery, the zero-public-key rejection, and the cache write.
The first component is the post-state (Python mutates `self` in place and
the exception leaves prior mutations behind); the second is the returned
address or the raised error. -/
def finishRecovery (ext : Ext) (tx : Transaction) (vee : Nat) (sighash : Bytes) :
    Transaction × Except String Bytes :=
  if secpk1n ≤ tx.r ∨ secpk1n ≤ tx.s ∨ tx.r = 0 ∨ tx.s = 0 then
    (tx, Except.error "Invalid signature values!")
  else if ext.ecrecover_to_pub sighash vee tx.r tx.s = List.replicate 64 0 then
    (tx, Except.error "Invalid signature (zero privkey cannot sign)")
  else
    ({ tx with _sender := some (pubToAddr ext (ext.ecrecover_to_pub sighash vee tx.r tx.s)) },
     Except.ok (pubToAddr ext (ext.ecrecover_to_pub sighash vee tx.r tx.s)))

/-- The `sender` property (lines 73-100), as a state transformer: returns
the cached sender if the cache is truthy; otherwise the `r = s = 0`
sentinel branch, the legacy `v ∈ (27, 28)` branch, the replay-protected
`v ≥ 37` branch (with the `assert vee in (27, 28)`), or the
invalid-`v` error, followed by the signature checks and recovery of
`finishRecovery`. -/
def senderStep (ext : Ext) (tx : Transaction) : Transaction × Except String Bytes :=
  match cachedSender tx with
  | some a => (tx, Except.ok a)
  | none =>
    if tx.r = 0 ∧ tx.s = 0 then
      ({ tx with network_id := some tx.v, _sender := some null_address },
       Except.ok null_address)
    else if tx.v = 27 ∨ tx.v = 28 then
      finishRecovery ext { tx with network_id := none } tx.v
        (ext.sha3 (ext.rlpEncode (RLPItem.list (unsignedSeq tx))))
    else if 37 ≤ tx.v then
      if recoveryParity tx.v = 27 ∨ recoveryParity tx.v = 28 then
        finishRecovery ext { tx with network_id := some (extractChainId tx.v) }
          (recoveryParity tx.v)
          (ext.sha3 (ext.rlpEncode (RLPItem.list (replaySeq tx (extractChainId tx.v)))))
      else ({ tx with network_id := some (extractChainId tx.v) },
            Except.error "AssertionError")
    else (tx, Except.error "Invalid V value")

/-- A private key as `sign` receives it: a Python integer, or a Python 2
string (raw bytes or a hex text — the two coincide). -/
inductive Key where
  | num (n : Nat)
  | str (b : Bytes)
deriving DecidableEq

/-- Line 111: `key in (0, '', b'\x00' * 32, '0' * 64)` — numeric zero, the
empty string, 32 zero bytes, or 64 ASCII `'0'` characters (byte 48). -/
def isZeroKey : Key → Bool
  | Key.num n => n == 0
  | Key.str b => b == [] || b == List.replicate 32 0 || b == List.replicate 64 48

/-- Lines 120-122: a 64-character key is converted to binary by the external
`encode_privkey(key, 'bin')`; other strings pass through.  `len` of an
integer key raises a `TypeError` (`none`). -/
def normKey (ext : Ext) : Key → Option Bytes
  | Key.num _ => none
  | Key.str b => some (if b.length = 64 then ext.encode_privkey b else b)

/-- Lines 120-129 of `sign`: normalize the key, run `ecsign` on the raw
hash, store `(v, r, s)` (with `v += 8 + network_id * 2` when a chain id was
given), and cache the sender as `privtoaddr(key)`. -/
def signHash (ext : Ext) (tx : Transaction) (key : Key) (network_id : Option Nat)
    (rawhash : Bytes) : Except String Transaction :=
  match normKey ext key with
  | none => Except.error "TypeError"
  | some binkey =>
    Except.ok
      { tx with
        v := (match network_id with
              | none => (ext.ecsign rawhash binkey).1
              | some c => (ext.ecsign rawhash binkey).1 + 8 + c * 2),
        r := (ext.ecsign rawhash binkey).2.1,
        s := (ext.ecsign rawhash binkey).2.2,
        _sender := some (ext.privtoaddr binkey) }

/-- The record produced by a successful `signHash` on the normalized binary
key: `(v, r, s)` from `ecsign` (with the chain-id offset on `v` when one
was given) and the sender cache set to `privtoaddr(key)`. -/
def signedTx (ext : Ext) (tx : Transaction) (binkey : Bytes) (w : Option Nat)
    (rawhash : Bytes) : Transaction :=
  { tx with
    v := (match w with
          | none => (ext.ecsign rawhash binkey).1
          | some c => (ext.ecsign rawhash binkey).1 + 8 + c * 2),
    r := (ext.ecsign rawhash binkey).2.1,
    s := (ext.ecsign rawhash binkey).2.2,
    _sender := some (ext.privtoaddr binkey) }

/-- `Transaction.sign` (lines 106-129): reject the zero key, compute the
signing hash from the unsigned encoding (no chain id) or the
replay-protected encoding (chain id asserted to satisfy
`1 ≤ c < 2^63 - 18`), then sign and store. -/
def sign (ext : Ext) (tx : Transaction) (key : Key) (network_id : Option Nat) :
    Except String Transaction :=
  if isZeroKey key then Except.error "Zero privkey cannot sign"
  else
    match network_id with
    | none =>
      signHash ext tx key none (ext.sha3 (ext.rlpEncode (RLPItem.list (unsignedSeq tx))))
    | some c =>
      if 1 ≤ c ∧ c < 2 ^ 63 - 18 then
        signHash ext tx key (some c)
          (ext.sha3 (ext.rlpEncode (RLPItem.list (replaySeq tx c))))
      else Except.error "AssertionError"

/-- The `creates` property (lines 167-171): when `to` is the empty string or
20 zero bytes (`self.to in (b'', '\0' * 20)` under Python 2 string
semantics), the contract address derived from the resolved sender and the
nonce; otherwise Python's implicit `None`.  Accessing `self.sender` may
raise, which propagates. -/
def creates (ext : Ext) (tx : Transaction) : Except String (Option Bytes) :=
  if tx.«to» = ([] : Bytes) ∨ tx.«to» = List.replicate 20 0 then
    match (senderStep ext tx).2 with
    | Except.error e => Except.error e
    | Except.ok a => Except.ok (some (ext.mk_contract_address a tx.nonce))
  else Except.ok none

/-! Concrete instantiations used to evaluate the development on closed
inputs. -/

/-- A concrete instantiation of the external collaborators. -/
def extT : Ext where
  sha3 := fun b => List.replicate 32 (b.length % 256)
  rlpEncode := fun _ => []
  ecsign := fun _ _ => (27, 1, 1)
  ecrecover_to_pub := fun _ _ _ _ => List.replicate 64 1
  encode_privkey := fun b => b.take 32
  privtoaddr := fun _ => List.replicate 20 1
  mk_contract_address := fun a _ => a

/-- A concrete unsigned transaction (all-zero signature fields, empty
`to`, empty data, `startgas` at the intrinsic minimum). -/
def txT : Transaction :=
  { nonce := 0, gasprice := 1, startgas := 21000, «to» := [], value := 0,
    data := [], v := 0, r := 0, s := 0, network_id := none, _sender := none }

/-- A concrete constructible transaction with a replay-protected `v = 37`
and an out-of-range `r` equal to the curve order. -/
def tx7 : Transaction :=
  { nonce := 0, gasprice := 1, startgas := 21000, «to» := [], value := 0,
    data := [], v := 37, r := secpk1n, s := 1, network_id := none, _sender := none }

/-- A concrete constructible transaction whose `to` is 20 zero bytes, with
the null-signature sentinel `v = r = s = 0`. -/
def tx9 : Transaction :=
  { nonce := 0, gasprice := 1, startgas := 21000, «to» := List.replicate 20 0,
    value := 0, data := [], v := 0, r := 0, s := 0,
    network_id := none, _sender := none }

deriving instance DecidableEq for Except

/-! Helper lemmas shared by the verification theorems. -/

theorem recoveryParity_mem (v : Nat) (h : 37 ≤ v) :
    recoveryParity v = 27 ∨ recoveryParity v = 28 := by
  unfold recoveryParity extractChainId
  omega

theorem finishRecovery_bad (ext : Ext) (tx : Transaction) (vee : Nat) (sighash : Bytes)
    (h : secpk1n ≤ tx.r ∨ secpk1n ≤ tx.s ∨ tx.r = 0 ∨ tx.s = 0) :
    finishRecovery ext tx vee sighash = (tx, Except.error "Invalid signature values!") := by
  unfold finishRecovery
  rw [if_pos h]

theorem finishRecovery_good (ext : Ext) (tx : Transaction) (vee : Nat) (sighash : Bytes)
    (h : ¬(secpk1n ≤ tx.r ∨ secpk1n ≤ tx.s ∨ tx.r = 0 ∨ tx.s = 0)) :
    (finishRecovery ext tx vee sighash).2 =
      (if ext.ecrecover_to_pub sighash vee tx.r tx.s = List.replicate 64 0 then
         Except.error "Invalid signature (zero privkey cannot sign)"
       else Except.ok (pubToAddr ext (ext.ecrecover_to_pub sighash vee tx.r tx.s))) := by
  unfold finishRecovery
  rw [if_neg h]
  split <;> rfl

theorem finishRecovery_snd_ne_assert (ext : Ext) (tx : Transaction) (vee : Nat)
    (sighash : Bytes) :
    (finishRecovery ext tx vee sighash).2 ≠ Except.error "AssertionError" := by
  unfold finishRecovery
  split
  · intro h
    exact absurd (Except.error.inj h) (by decide)
  · split
    · intro h
      exact absurd (Except.error.inj h) (by decide)
    · intro h
      exact Except.noConfusion h

theorem senderStep_snd_ne_assert (ext : Ext) (tx : Transaction) :
    (senderStep ext tx).2 ≠ Except.error "AssertionError" := by
  unfold senderStep
  cases hc : cachedSender tx with
  | some a =>
    intro h
    exact Except.noConfusion h
  | none =>
    by_cases h0 : tx.r = 0 ∧ tx.s = 0
    · rw [if_pos h0]
      intro h
      exact Except.noConfusion h
    · rw [if_neg h0]
      by_cases h27 : tx.v = 27 ∨ tx.v = 28
      · rw [if_pos h27]
        apply finishRecovery_snd_ne_assert
      · rw [if_neg h27]
        by_cases h37 : 37 ≤ tx.v
        · rw [if_pos h37, if_pos (recoveryParity_mem tx.v h37)]
          apply finishRecovery_snd_ne_assert
        · rw [if_neg h37]
          intro h
          exact absurd (Except.error.inj h) (by decide)

theorem senderStep_cached (ext : Ext) (tx : Transaction) (a : Bytes)
    (hc : cachedSender tx = some a) : senderStep ext tx = (tx, Except.ok a) := by
  unfold senderStep
  rw [hc]

theorem senderStep_uncached (ext : Ext) (tx : Transaction)
    (hc : cachedSender tx = none) :
    senderStep ext tx =
      if tx.r = 0 ∧ tx.s = 0 then
        ({ tx with network_id := some tx.v, _sender := some null_address },
         Except.ok null_address)
      else if tx.v = 27 ∨ tx.v = 28 then
        finishRecovery ext { tx with network_id := none } tx.v
          (ext.sha3 (ext.rlpEncode (RLPItem.list (unsignedSeq tx))))
      else if 37 ≤ tx.v then
        if recoveryParity tx.v = 27 ∨ recoveryParity tx.v = 28 then
          finishRecovery ext { tx with network_id := some (extractChainId tx.v) }
            (recoveryParity tx.v)
            (ext.sha3 (ext.rlpEncode (RLPItem.list (replaySeq tx (extractChainId tx.v)))))
        else ({ tx with network_id := some (extractChainId tx.v) },
              Except.error "AssertionError")
      else (tx, Except.error "Invalid V value") := by
  unfold senderStep
  rw [hc]

theorem finishRecovery_fst_network_id (ext : Ext) (tx : Transaction) (vee : Nat)
    (sighash : Bytes) :
    ((finishRecovery ext tx vee sighash).1).network_id = tx.network_id := by
  unfold finishRecovery
  split
  · rfl
  · split <;> rfl

theorem senderStep_replay_network_id (ext : Ext) (tx : Transaction)
    (hc : cachedSender tx = none) (hrs : ¬(tx.r = 0 ∧ tx.s = 0)) (h37 : 37 ≤ tx.v) :
    ((senderStep ext tx).1).network_id = some (extractChainId tx.v) := by
  rw [senderStep_uncached ext tx hc, if_neg hrs, if_neg (by omega), if_pos h37,
    if_pos (recoveryParity_mem tx.v h37), finishRecovery_fst_network_id]

theorem signHash_eq (ext : Ext) (tx : Transaction) (key : Key) (binkey : Bytes)
    (hb : normKey ext key = some binkey) (w : Option Nat) (h : Bytes) :
    signHash ext tx key w h = Except.ok (signedTx ext tx binkey w h) := by
  unfold signHash signedTx
  rw [hb]

theorem mkTransaction_wf («to» : Bytes) (hto : «to».length = 20 ∨ «to».length = 0)
    (nonce gasprice startgas value : Nat) (data : Bytes) (v r s : Nat) :
    mkTransaction nonce gasprice startgas «to» value data v r s =
      if TT256 ≤ gasprice ∨ TT256 ≤ startgas ∨ TT256 ≤ value ∨ TT256 ≤ nonce then
        Except.error "Values way too high!"
      else if startgas < intrinsic_gas_used data then Except.error "Startgas too low"
      else Except.ok
        { nonce := nonce, gasprice := gasprice, startgas := startgas, «to» := «to»,
          value := value, data := data, v := v, r := r, s := s,
          network_id := none, _sender := none } := by
  unfold mkTransaction
  rw [if_neg (not_not_intro hto)]

theorem finishRecovery_error_fst (ext : Ext) (tx : Transaction) (vee : Nat)
    (sighash : Bytes) (e : String)
    (he : (finishRecovery ext tx vee sighash).2 = Except.error e) :
    (finishRecovery ext tx vee sighash).1 = tx := by
  unfold finishRecovery at he ⊢
  by_cases h1 : secpk1n ≤ tx.r ∨ secpk1n ≤ tx.s ∨ tx.r = 0 ∨ tx.s = 0
  · rw [if_pos h1]
  · rw [if_neg h1] at he ⊢
    by_cases h2 : ext.ecrecover_to_pub sighash vee tx.r tx.s = List.replicate 64 0
    · rw [if_pos h2]
    · rw [if_neg h2] at he
      exact Except.noConfusion he

theorem senderStep_error_fst (ext : Ext) (tx : Transaction) (e : String)
    (he : (senderStep ext tx).2 = Except.error e) :
    (senderStep ext tx).1 = tx
    ∨ (senderStep ext tx).1 = { tx with network_id := none }
    ∨ (senderStep ext tx).1 = { tx with network_id := some (extractChainId tx.v) } := by
  cases hc : cachedSender tx with
  | some a =>
    rw [senderStep_cached ext tx a hc] at he
    exact Except.noConfusion he
  | none =>
    rw [senderStep_uncached ext tx hc] at he ⊢
    by_cases h0 : tx.r = 0 ∧ tx.s = 0
    · rw [if_pos h0] at he
      exact Except.noConfusion he
    · rw [if_neg h0] at he ⊢
      by_cases h27 : tx.v = 27 ∨ tx.v = 28
      · rw [if_pos h27] at he ⊢
        exact Or.inr (Or.inl (finishRecovery_error_fst ext _ _ _ e he))
      · rw [if_neg h27] at he ⊢
        by_cases h37 : 37 ≤ tx.v
        · rw [if_pos h37, if_pos (recoveryParity_mem tx.v h37)] at he ⊢
          exact Or.inr (Or.inr (finishRecovery_error_fst ext _ _ _ e he))
        · rw [if_neg h37]
          exact Or.inl rfl

/-! Theorems settling the claims. -/

/-- C6: for every `v ≥ 37`, with the chain identifier computed as
`((v - 1) / 2) - 17`, the recovery parity `v - chain_id * 2 - 8` always
lies in `(27, 28)`; consequently the `assert vee in (27, 28)` in the
`v ≥ 37` branch of `sender` is unreachable — `senderStep` can never
produce its `AssertionError`, whatever the transaction and the external
primitives do. -/
theorem C6_recovery_parity_assert_unreachable (v : Nat) (h : 37 ≤ v) :
    (recoveryParity v = 27 ∨ recoveryParity v = 28)
    ∧ ∀ (ext : Ext) (tx : Transaction),
        (senderStep ext tx).2 ≠ Except.error "AssertionError" :=
  ⟨recoveryParity_mem v h, fun ext tx => senderStep_snd_ne_assert ext tx⟩

/-- Witness for C6 at `v = 37` (chain id 1, parity 27). -/
theorem C6_witness :
    recoveryParity 37 = 27 ∨ recoveryParity 37 = 28 :=
  (C6_recovery_parity_assert_unreachable 37 (by decide)).1

/-- C4: with no (truthy) cached sender and `r = s = 0`, the `sender`
property performs no public-key recovery (the result does not depend on
`ext` at all): it sets `network_id` to the raw `v` and caches and returns
the reserved null address, 20 bytes of `0xFF`. -/
theorem C4_null_signature_sentinel (ext : Ext) (tx : Transaction)
    (hc : cachedSender tx = none) (hr : tx.r = 0) (hs : tx.s = 0) :
    senderStep ext tx =
      ({ tx with network_id := some tx.v, _sender := some null_address },
       Except.ok null_address)
    ∧ null_address = List.replicate 20 255 := by
  constructor
  · unfold senderStep
    rw [hc]
    rw [if_pos ⟨hr, hs⟩]
  · rfl

/-- Witness for C4: the concrete unsigned transaction `txT`. -/
theorem C4_witness :
    senderStep extT txT =
      ({ txT with network_id := some txT.v, _sender := some null_address },
       Except.ok null_address)
    ∧ null_address = List.replicate 20 255 :=
  C4_null_signature_sentinel extT txT rfl rfl rfl

/-- C8: `sign` rejects a zero private key in each of its four
representations — numeric zero, the empty string, 32 zero bytes, and the
64-character all-`'0'` hex string — with the invalid-transaction error
raised on the first line of `sign`, before any hash or signature is
computed; the error return models the exception propagating with the
transaction object unmodified (no assignment to `v`, `r`, `s` or the
sender cache has happened). -/
theorem C8_zero_key_rejected (ext : Ext) (tx : Transaction) (nid : Option Nat)
    (key : Key)
    (h : key = Key.num 0 ∨ key = Key.str [] ∨ key = Key.str (List.replicate 32 0)
         ∨ key = Key.str (List.replicate 64 48)) :
    sign ext tx key nid = Except.error "Zero privkey cannot sign" := by
  have hz : isZeroKey key = true := by
    rcases h with h | h | h | h <;> subst h <;> decide
  unfold sign
  rw [if_pos (by simp [hz])]

/-- Witness for C8 at the numeric-zero key. -/
theorem C8_witness :
    sign extT txT (Key.num 0) none = Except.error "Zero privkey cannot sign" :=
  C8_zero_key_rejected extT txT none (Key.num 0) (Or.inl rfl)

/-- C3: during sender recovery with `(r, s)` not both zero: a `v` neither
in `(27, 28)` nor `≥ 37` raises the invalid-`v` error; otherwise
`r ≥ curve_order`, `s ≥ curve_order`, `r = 0` or `s = 0` raises the
invalid-signature error; and when every check passes the outcome is
exactly that of public-key recovery (`ecrecover_to_pub` on the branch's
signing hash and parity, the all-zero public key rejected, any other key
hashed to the sender address). -/
theorem C3_signature_validation (ext : Ext) (tx : Transaction)
    (hc : cachedSender tx = none) (hrs : ¬(tx.r = 0 ∧ tx.s = 0)) :
    (¬(tx.v = 27 ∨ tx.v = 28) → tx.v < 37 →
      (senderStep ext tx).2 = Except.error "Invalid V value")
    ∧ ((tx.v = 27 ∨ tx.v = 28 ∨ 37 ≤ tx.v) →
      (secpk1n ≤ tx.r ∨ secpk1n ≤ tx.s ∨ tx.r = 0 ∨ tx.s = 0) →
      (senderStep ext tx).2 = Except.error "Invalid signature values!")
    ∧ ((tx.v = 27 ∨ tx.v = 28 ∨ 37 ≤ tx.v) →
      tx.r < secpk1n → tx.s < secpk1n → tx.r ≠ 0 → tx.s ≠ 0 →
      ∃ sighash vee, (vee = tx.v ∨ vee = recoveryParity tx.v) ∧
        (senderStep ext tx).2 =
          (if ext.ecrecover_to_pub sighash vee tx.r tx.s = List.replicate 64 0 then
             Except.error "Invalid signature (zero privkey cannot sign)"
           else Except.ok (pubToAddr ext (ext.ecrecover_to_pub sighash vee tx.r tx.s)))) := by
  refine ⟨?_, ?_, ?_⟩
  · intro h27 h37
    rw [senderStep_uncached ext tx hc, if_neg hrs, if_neg h27, if_neg (by omega)]
  · intro hv hbad
    rw [senderStep_uncached ext tx hc, if_neg hrs]
    by_cases h27 : tx.v = 27 ∨ tx.v = 28
    · rw [if_pos h27,
        finishRecovery_bad ext { tx with network_id := none } tx.v
          (ext.sha3 (ext.rlpEncode (RLPItem.list (unsignedSeq tx)))) hbad]
    · have h37 : 37 ≤ tx.v := by rcases hv with h | h | h <;> omega
      rw [if_neg h27, if_pos h37, if_pos (recoveryParity_mem tx.v h37),
        finishRecovery_bad ext { tx with network_id := some (extractChainId tx.v) }
          (recoveryParity tx.v)
          (ext.sha3 (ext.rlpEncode (RLPItem.list (replaySeq tx (extractChainId tx.v)))))
          hbad]
  · intro hv hr hs hr0 hs0
    have hok : ¬(secpk1n ≤ tx.r ∨ secpk1n ≤ tx.s ∨ tx.r = 0 ∨ tx.s = 0) := by
      push_neg
      exact ⟨hr, hs, hr0, hs0⟩
    by_cases h27 : tx.v = 27 ∨ tx.v = 28
    · refine ⟨ext.sha3 (ext.rlpEncode (RLPItem.list (unsignedSeq tx))), tx.v,
        Or.inl rfl, ?_⟩
      rw [senderStep_uncached ext tx hc, if_neg hrs, if_pos h27]
      exact finishRecovery_good ext _ _ _ hok
    · have h37 : 37 ≤ tx.v := by rcases hv with h | h | h <;> omega
      refine ⟨ext.sha3 (ext.rlpEncode (RLPItem.list (replaySeq tx (extractChainId tx.v)))),
        recoveryParity tx.v, Or.inr rfl, ?_⟩
      rw [senderStep_uncached ext tx hc, if_neg hrs, if_neg h27, if_pos h37,
        if_pos (recoveryParity_mem tx.v h37)]
      exact finishRecovery_good ext _ _ _ hok

/-- Witness for C3: a transaction with `v = 1`, `r = s = 1` fails with the
invalid-`v` error. -/
theorem C3_witness :
    (senderStep extT { txT with v := 1, r := 1, s := 1 }).2 =
      Except.error "Invalid V value" :=
  (C3_signature_validation extT { txT with v := 1, r := 1, s := 1 } rfl
    (by decide)).1 (by decide) (by decide)

/-- C1: signing with a non-zero private key (in a representation `sign`
accepts, with the external primitives meeting their contracts: `ecsign`
returns parity 27 or 28 and a not-all-zero `(r, s)`, `privtoaddr` returns
a non-empty address) and then reading `sender` returns the address derived
directly from the key via `privtoaddr`, on both the chain-id and the
no-chain-id paths (`sign` caches that address and the `sender` property
returns the cache); and when a chain id was passed, the chain identifier
extracted from the stored `v` equals that chain id, and re-running
recovery on the signed fields with a cleared cache stores
`network_id = chain_id`. -/
theorem C1_sign_then_sender (ext : Ext) (tx : Transaction) (key : Key)
    (nid : Option Nat) (binkey : Bytes)
    (hz : isZeroKey key = false)
    (hb : normKey ext key = some binkey)
    (ha : ext.privtoaddr binkey ≠ [])
    (hnid : ∀ c, nid = some c → 1 ≤ c ∧ c < 2 ^ 63 - 18)
    (hp : ∀ h k, (ext.ecsign h k).1 = 27 ∨ (ext.ecsign h k).1 = 28)
    (hs : ∀ h k, ¬((ext.ecsign h k).2.1 = 0 ∧ (ext.ecsign h k).2.2 = 0)) :
    ∃ tx2, sign ext tx key nid = Except.ok tx2
      ∧ (senderStep ext tx2).2 = Except.ok (ext.privtoaddr binkey)
      ∧ ∀ c, nid = some c →
          extractChainId tx2.v = c
          ∧ ((senderStep ext { tx2 with _sender := none }).1).network_id = some c := by
  cases nid with
  | none =>
    refine ⟨signedTx ext tx binkey none
        (ext.sha3 (ext.rlpEncode (RLPItem.list (unsignedSeq tx)))), ?_, ?_, ?_⟩
    · unfold sign
      rw [if_neg (by simp [hz])]
      exact signHash_eq ext tx key binkey hb none _
    · rw [senderStep_cached ext _ (ext.privtoaddr binkey) (by simp [signedTx, cachedSender, ha])]
    · intro c h
      exact Option.noConfusion h
  | some c =>
    have hcr := hnid c rfl
    have hsig := hp (ext.sha3 (ext.rlpEncode (RLPItem.list (replaySeq tx c)))) binkey
    have hv37 : 37 ≤ (signedTx ext tx binkey (some c)
        (ext.sha3 (ext.rlpEncode (RLPItem.list (replaySeq tx c))))).v := by
      show 37 ≤ (ext.ecsign _ binkey).1 + 8 + c * 2
      rcases hsig with h | h <;> omega
    have hcid : extractChainId (signedTx ext tx binkey (some c)
        (ext.sha3 (ext.rlpEncode (RLPItem.list (replaySeq tx c))))).v = c := by
      show extractChainId ((ext.ecsign _ binkey).1 + 8 + c * 2) = c
      unfold extractChainId
      rcases hsig with h | h <;> omega
    refine ⟨signedTx ext tx binkey (some c)
        (ext.sha3 (ext.rlpEncode (RLPItem.list (replaySeq tx c)))), ?_, ?_, ?_⟩
    · unfold sign
      rw [if_neg (by simp [hz])]
      show (if 1 ≤ c ∧ c < 2 ^ 63 - 18 then
          signHash ext tx key (some c)
            (ext.sha3 (ext.rlpEncode (RLPItem.list (replaySeq tx c))))
        else Except.error "AssertionError") = _
      rw [if_pos hcr]
      exact signHash_eq ext tx key binkey hb (some c) _
    · rw [senderStep_cached ext _ (ext.privtoaddr binkey) (by simp [signedTx, cachedSender, ha])]
    · intro c2 h
      cases h
      refine ⟨hcid, ?_⟩
      rw [senderStep_replay_network_id ext
        { signedTx ext tx binkey (some c)
            (ext.sha3 (ext.rlpEncode (RLPItem.list (replaySeq tx c)))) with
          _sender := none }
        rfl (by exact hs _ binkey) (by exact hv37)]
      exact congrArg some hcid

/-- Witness for C1: the concrete transaction `txT` signed with the 32-byte
key of all `0x01` bytes and chain id 1 under `extT`. -/
theorem C1_witness :
    ∃ tx2, sign extT txT (Key.str (List.replicate 32 1)) (some 1) = Except.ok tx2
      ∧ (senderStep extT tx2).2 = Except.ok (extT.privtoaddr (List.replicate 32 1))
      ∧ ∀ c, (some 1 : Option Nat) = some c →
          extractChainId tx2.v = c
          ∧ ((senderStep extT { tx2 with _sender := none }).1).network_id = some c :=
  C1_sign_then_sender extT txT (Key.str (List.replicate 32 1)) (some 1)
    (List.replicate 32 1) (by decide) (by decide) (by decide)
    (fun c h => by cases h; decide)
    (fun _ _ => Or.inl rfl) (fun _ _ h => absurd h.1 one_ne_zero)

/-- C2: `sign` with a chain identifier `c` satisfying `1 ≤ c < 2^63 - 18`
hashes exactly the nine-element sequence
`[nonce, gasprice, startgas, to, value, data, c, '', '']` (`c` as an
integer, two empty strings), and stores `v` as the raw parity returned by
`ecsign` plus `8 + 2 * c`, with `r` and `s` stored unchanged. -/
theorem C2_chain_id_signing (ext : Ext) (tx : Transaction) (key : Key) (c : Nat)
    (binkey : Bytes) (hz : isZeroKey key = false)
    (hb : normKey ext key = some binkey) (hc : 1 ≤ c ∧ c < 2 ^ 63 - 18) :
    replaySeq tx c =
      [RLPItem.int tx.nonce, RLPItem.int tx.gasprice, RLPItem.int tx.startgas,
       RLPItem.str tx.«to», RLPItem.int tx.value, RLPItem.str tx.data,
       RLPItem.int c, RLPItem.str [], RLPItem.str []]
    ∧ ∃ tx2, sign ext tx key (some c) = Except.ok tx2
      ∧ tx2.v = (ext.ecsign (ext.sha3 (ext.rlpEncode (RLPItem.list (replaySeq tx c))))
          binkey).1 + 8 + 2 * c
      ∧ tx2.r = (ext.ecsign (ext.sha3 (ext.rlpEncode (RLPItem.list (replaySeq tx c))))
          binkey).2.1
      ∧ tx2.s = (ext.ecsign (ext.sha3 (ext.rlpEncode (RLPItem.list (replaySeq tx c))))
          binkey).2.2 := by
  constructor
  · rfl
  · refine ⟨signedTx ext tx binkey (some c)
        (ext.sha3 (ext.rlpEncode (RLPItem.list (replaySeq tx c)))), ?_, ?_, rfl, rfl⟩
    · unfold sign
      rw [if_neg (by simp [hz])]
      show (if 1 ≤ c ∧ c < 2 ^ 63 - 18 then
          signHash ext tx key (some c)
            (ext.sha3 (ext.rlpEncode (RLPItem.list (replaySeq tx c))))
        else Except.error "AssertionError") = _
      rw [if_pos hc]
      exact signHash_eq ext tx key binkey hb (some c) _
    · show (ext.ecsign _ binkey).1 + 8 + c * 2 = _ + 8 + 2 * c
      omega

/-- Witness for C2 under `extT` with the all-`0x01` key and chain id 5. -/
theorem C2_witness :
    replaySeq txT 5 =
      [RLPItem.int txT.nonce, RLPItem.int txT.gasprice, RLPItem.int txT.startgas,
       RLPItem.str txT.«to», RLPItem.int txT.value, RLPItem.str txT.data,
       RLPItem.int 5, RLPItem.str [], RLPItem.str []]
    ∧ ∃ tx2, sign extT txT (Key.str (List.replicate 32 1)) (some 5) = Except.ok tx2
      ∧ tx2.v = (extT.ecsign (extT.sha3 (extT.rlpEncode (RLPItem.list (replaySeq txT 5))))
          (List.replicate 32 1)).1 + 8 + 2 * 5
      ∧ tx2.r = (extT.ecsign (extT.sha3 (extT.rlpEncode (RLPItem.list (replaySeq txT 5))))
          (List.replicate 32 1)).2.1
      ∧ tx2.s = (extT.ecsign (extT.sha3 (extT.rlpEncode (RLPItem.list (replaySeq txT 5))))
          (List.replicate 32 1)).2.2 :=
  C2_chain_id_signing extT txT (Key.str (List.replicate 32 1)) 5
    (List.replicate 32 1) (by decide) (by decide) (by decide)

/-- C5: with a well-formed `to` (20 bytes or empty), construction fails
exactly when one of `nonce`, `gasprice`, `startgas`, `value` is `≥ 2^256`
or `startgas` is strictly below the intrinsic gas of `data`; in
particular, with the other fields in range, `startgas` equal to the
intrinsic gas succeeds and one less fails. -/
theorem C5_construction_checks (nonce gasprice startgas : Nat) («to» : Bytes)
    (value : Nat) (data : Bytes) (v r s : Nat)
    (hto : «to».length = 20 ∨ «to».length = 0) :
    ((∃ e, mkTransaction nonce gasprice startgas «to» value data v r s
        = Except.error e)
      ↔ (TT256 ≤ nonce ∨ TT256 ≤ gasprice ∨ TT256 ≤ startgas ∨ TT256 ≤ value
         ∨ startgas < intrinsic_gas_used data))
    ∧ (nonce < TT256 → gasprice < TT256 → value < TT256 →
        intrinsic_gas_used data < TT256 →
        (∃ t, mkTransaction nonce gasprice (intrinsic_gas_used data) «to» value data
            v r s = Except.ok t)
        ∧ (∃ e, mkTransaction nonce gasprice (intrinsic_gas_used data - 1) «to»
            value data v r s = Except.error e)) := by
  constructor
  · rw [mkTransaction_wf «to» hto]
    by_cases h1 : TT256 ≤ gasprice ∨ TT256 ≤ startgas ∨ TT256 ≤ value ∨ TT256 ≤ nonce
    · rw [if_pos h1]
      exact ⟨fun _ => by tauto, fun _ => ⟨_, rfl⟩⟩
    · rw [if_neg h1]
      by_cases h2 : startgas < intrinsic_gas_used data
      · rw [if_pos h2]
        exact ⟨fun _ => by tauto, fun _ => ⟨_, rfl⟩⟩
      · rw [if_neg h2]
        constructor
        · rintro ⟨e, he⟩
          exact Except.noConfusion he
        · intro h
          tauto
  · intro h1 h2 h3 h4
    have hpos : 0 < intrinsic_gas_used data := by
      unfold intrinsic_gas_used GTXCOST
      omega
    constructor
    · rw [mkTransaction_wf «to» hto]
      rw [if_neg (by push_neg; exact ⟨h2, h4, h3, h1⟩), if_neg (lt_irrefl _)]
      exact ⟨_, rfl⟩
    · rw [mkTransaction_wf «to» hto]
      rw [if_neg (by push_neg; refine ⟨h2, by omega, h3, h1⟩), if_pos (by omega)]
      exact ⟨_, rfl⟩

/-- Witness for C5: empty data; `startgas` at the intrinsic cost succeeds,
one below fails. -/
theorem C5_witness :
    (∃ t, mkTransaction 0 0 (intrinsic_gas_used []) [] 0 [] 0 0 0 = Except.ok t)
    ∧ ∃ e, mkTransaction 0 0 (intrinsic_gas_used [] - 1) [] 0 [] 0 0 0
        = Except.error e :=
  (C5_construction_checks 0 0 0 [] 0 [] 0 0 0 (Or.inr rfl)).2
    (by decide) (by decide) (by decide) (by decide)

/-- Counterexample to C7 as stated: `tx7` (accepted by the constructor, as
the first conjunct shows) fails sender recovery with the invalid-signature
error, yet the failed access mutates the transaction: `network_id` goes
from `none` to `some 1`. -/
theorem C7_counterexample :
    mkTransaction 0 1 21000 [] 0 [] 37 secpk1n 1 = Except.ok tx7
    ∧ (senderStep extT tx7).2 = Except.error "Invalid signature values!"
    ∧ tx7.network_id = none
    ∧ ((senderStep extT tx7).1).network_id = some 1 := by
  decide

/-- C7 amended: when sender recovery raises an invalid-transaction error,
the cached sender and all nine serialized fields are unchanged by the
failed access; only `network_id` may have been updated before the failure
(cleared in the legacy branch, or set to the `v`-derived chain id in the
replay-protected branch). -/
theorem C7_error_preserves_fields (ext : Ext) (tx : Transaction) (e : String)
    (he : (senderStep ext tx).2 = Except.error e) :
    ((senderStep ext tx).1).nonce = tx.nonce
    ∧ ((senderStep ext tx).1).gasprice = tx.gasprice
    ∧ ((senderStep ext tx).1).startgas = tx.startgas
    ∧ ((senderStep ext tx).1).«to» = tx.«to»
    ∧ ((senderStep ext tx).1).value = tx.value
    ∧ ((senderStep ext tx).1).data = tx.data
    ∧ ((senderStep ext tx).1).v = tx.v
    ∧ ((senderStep ext tx).1).r = tx.r
    ∧ ((senderStep ext tx).1).s = tx.s
    ∧ ((senderStep ext tx).1)._sender = tx._sender
    ∧ (((senderStep ext tx).1).network_id = tx.network_id
       ∨ ((senderStep ext tx).1).network_id = none
       ∨ ((senderStep ext tx).1).network_id = some (extractChainId tx.v)) := by
  rcases senderStep_error_fst ext tx e he with h | h | h
  · rw [h]
    exact ⟨rfl, rfl, rfl, rfl, rfl, rfl, rfl, rfl, rfl, rfl, Or.inl rfl⟩
  · rw [h]
    exact ⟨rfl, rfl, rfl, rfl, rfl, rfl, rfl, rfl, rfl, rfl, Or.inr (Or.inl rfl)⟩
  · rw [h]
    exact ⟨rfl, rfl, rfl, rfl, rfl, rfl, rfl, rfl, rfl, rfl, Or.inr (Or.inr rfl)⟩

/-- Witness for the amended C7 at `tx7`: the sender cache survives the
failed recovery unchanged. -/
theorem C7_witness :
    ((senderStep extT tx7).1)._sender = tx7._sender :=
  (C7_error_preserves_fields extT tx7 "Invalid signature values!"
    (by decide)).2.2.2.2.2.2.2.2.2.1

/-- Counterexample to C9 as stated: `tx9` (accepted by the constructor, as
the first conjunct shows) has a non-empty `to` — 20 zero bytes — yet
`creates` returns a contract address rather than absent. -/
theorem C9_counterexample :
    mkTransaction 0 1 21000 (List.replicate 20 0) 0 [] 0 0 0 = Except.ok tx9
    ∧ tx9.«to» ≠ []
    ∧ creates extT tx9 = Except.ok (some null_address) := by
  decide

/-- C9 amended: `creates` returns the contract address derived from the
resolved sender and the nonce when `to` is empty or 20 zero bytes, and
absent when `to` is any other value. -/
theorem C9_creates_classification (ext : Ext) (tx : Transaction) :
    ((tx.«to» = [] ∨ tx.«to» = List.replicate 20 0) → ∀ a,
      (senderStep ext tx).2 = Except.ok a →
      creates ext tx = Except.ok (some (ext.mk_contract_address a tx.nonce)))
    ∧ (tx.«to» ≠ [] → tx.«to» ≠ List.replicate 20 0 →
      creates ext tx = Except.ok none) := by
  constructor
  · intro h a ha
    unfold creates
    rw [if_pos h, ha]
  · intro h1 h2
    unfold creates
    rw [if_neg (by tauto)]

/-- Witness for the amended C9: a `to` of 20 `0x07` bytes gives no contract
address. -/
theorem C9_witness :
    creates extT { txT with «to» := List.replicate 20 7 } = Except.ok none :=
  (C9_creates_classification extT { txT with «to» := List.replicate 20 7 }).2
    (by decide) (by decide)

/-- C10: `creates` treats a `to` of 20 zero bytes exactly like the empty
`to`: it returns the contract address derived from the resolved sender and
the nonce. -/
theorem C10_creates_zero_address (ext : Ext) (tx : Transaction)
    (h : tx.«to» = List.replicate 20 0) (a : Bytes)
    (ha : (senderStep ext tx).2 = Except.ok a) :
    creates ext tx = Except.ok (some (ext.mk_contract_address a tx.nonce)) := by
  unfold creates
  rw [if_pos (Or.inr h), ha]

/-- Witness for C10 at `tx9` (sentinel signature, so the resolved sender is
the null address). -/
theorem C10_witness :
    creates extT tx9 = Except.ok (some (extT.mk_contract_address null_address tx9.nonce)) :=
  C10_creates_zero_address extT tx9 rfl null_address (by decide)

end PyEth
